import Mathlib

/-!
Shallow embedding of the formation-control agent core (src/src/agent_core.cpp).

Scalars are modeled as rationals; the external math-library calls (std::sqrt,
std::cos, std::sin, std::tan, std::atan2, std::fmod with M_PI) are passed as
function parameters, since their exact real values never matter to the
structural properties below.  Eigen dynamic vectors and matrices are modeled
as lists of rationals, and any coefficient access outside the bounds of the
container (an Eigen assertion failure / undefined behaviour in the C++ code,
or a std::out_of_range from std::vector::at) is modeled as Option.none.
-/

namespace FormationControl

/-- Configured statistics dimension (DEFAULT_NUMBER_OF_STATS, fixed at 5). -/
def number_of_stats : Nat := 5

/-- Configured control-input dimension (DEFAULT_NUMBER_OF_VELOCITIES, fixed at 2). -/
def number_of_velocities : Nat := 2

/-- The agent_test::FormationStatistics message: five spatial moments.
ROS message fields default-initialize to zero. -/
structure FormationStatistics where
  m_x : ℚ := 0
  m_y : ℚ := 0
  m_xx : ℚ := 0
  m_xy : ℚ := 0
  m_yy : ℚ := 0
deriving DecidableEq, Inhabited

/-- AgentCore::statsMsgToVector: packs the five moments into a 5-vector,
in the order m_x, m_y, m_xx, m_xy, m_yy (0-based indices 0..4). -/
def statsMsgToVector (msg : FormationStatistics) : List ℚ :=
  [msg.m_x, msg.m_y, msg.m_xx, msg.m_xy, msg.m_yy]

/-- AgentCore::statsVectorToMsg: if the vector size differs from
number_of_stats, logs an error (the Bool component records that the error
branch was taken) and returns a default-constructed message; otherwise it
reads the Eigen coefficients vector(1), vector(2), vector(3), vector(4) and
vector(5) into m_x .. m_yy.  On a 5-vector the read vector(5) is out of
range (valid 0-based indices are 0..4), modeled as none. -/
def statsVectorToMsg (vector : List ℚ) : Option (Bool × FormationStatistics) :=
  if vector.length ≠ number_of_stats then
    some (true, {})
  else do
    let a ← vector[1]?
    let b ← vector[2]?
    let c ← vector[3]?
    let d ← vector[4]?
    let e ← vector[5]?
    some (false, { m_x := a, m_y := b, m_xx := c, m_xy := d, m_yy := e })

/-- AgentCore::statsMsgToMatrix: builds a number_of_stats x number_of_stats
matrix whose row i is statsMsgToVector(msg.at(i)) for i = 0..number_of_stats-1.
std::vector::at throws std::out_of_range when i >= msg.size(), modeled as
none; entries of msg beyond index number_of_stats-1 are never read. -/
def statsMsgToMatrix (msg : List FormationStatistics) : Option (List (List ℚ)) :=
  (List.range number_of_stats).mapM fun i => (msg[i]?).map statsMsgToVector

/-- Componentwise sum of two vectors. -/
def vecAdd (a b : List ℚ) : List ℚ := List.zipWith (· + ·) a b

/-- Componentwise difference of two vectors. -/
def vecSub (a b : List ℚ) : List ℚ := List.zipWith (· - ·) a b

/-- Scaling of a vector by a scalar. -/
def vecScale (c : ℚ) (v : List ℚ) : List ℚ := v.map fun q => q * c

/-- Eigen colwise().sum() of a stack of number_of_stats-wide rows. -/
def colwiseSum (rows : List (List ℚ)) : List ℚ :=
  rows.foldl (fun acc row => vecAdd acc row) (List.replicate number_of_stats 0)

/-- AgentCore::integrator: trapezoidal integrator over the configured sample
time, out_old + k*sample_time*(in_old + in_new)/2. -/
def integrator (sample_time out_old in_old in_new k : ℚ) : ℚ :=
  out_old + k * sample_time * (in_old + in_new) / 2

/-- AgentCore::saturation: std::min(std::max(value, mn), mx). -/
def saturation (value mn mx : ℚ) : ℚ := min (max value mn) mx

/-- The member state read and written by AgentCore::consensus. -/
structure ConsensusState where
  sample_time : ℚ
  pose_virtual_x : ℚ
  pose_virtual_y : ℚ
  twist_virtual_x : ℚ
  twist_virtual_y : ℚ
  estimated_statistics : FormationStatistics
  received_statistics : List FormationStatistics

/-- The time derivative of phi(p) = [px, py, pxx, pxy, pyy] filled into
phi_dot_ by AgentCore::consensus (lines 106-110). -/
def phi_dot (s : ConsensusState) : List ℚ :=
  [s.twist_virtual_x,
   s.twist_virtual_y,
   2 * s.pose_virtual_x * s.twist_virtual_x,
   s.pose_virtual_y * s.twist_virtual_x + s.pose_virtual_x * s.twist_virtual_y,
   2 * s.pose_virtual_y * s.twist_virtual_y]

/-- AgentCore::consensus (lines 100-118): converts the estimate to a vector,
stacks the received messages via statsMsgToMatrix, clears the received
buffer, and applies
x += phi_dot*sample_time + (x_j.rowwise() - x).colwise().sum()*sample_time,
storing the result back through statsVectorToMsg.  none models an abort
(std::out_of_range from msg.at, or an out-of-range Eigen access). -/
def consensus (s : ConsensusState) : Option ConsensusState := do
  let x := statsMsgToVector s.estimated_statistics
  let x_j ← statsMsgToMatrix s.received_statistics
  let cleared := { s with received_statistics := [] }
  let pd := phi_dot cleared
  let corr := colwiseSum (x_j.map fun row => vecSub row x)
  let x := vecAdd x (vecAdd (vecScale cleared.sample_time pd) (vecScale cleared.sample_time corr))
  let r ← statsVectorToMsg x
  some { cleared with estimated_statistics := r.2 }

/-- Eigen MatrixXd::Identity(5, 2), the constructor value of jacob_phi_. -/
def identity52 : List (List ℚ) := [[1, 0], [0, 1], [0, 0], [0, 0], [0, 0]]

/-- Write to coefficient (i, j) of a row-major matrix; none when (i, j) is
outside the bounds of the stored matrix (an Eigen assertion failure). -/
def matSet (m : List (List ℚ)) (i j : Nat) (v : ℚ) : Option (List (List ℚ)) := do
  let row ← m[i]?
  let _ ← row[j]?
  some (m.set i (row.set j v))

/-- Dot product of two vectors. -/
def dotProduct (a b : List ℚ) : ℚ := (List.zipWith (· * ·) a b).sum

/-- Matrix-vector product. -/
def matMulVec (m : List (List ℚ)) (v : List ℚ) : List ℚ := m.map fun row => dotProduct row v

/-- Matrix transpose. -/
def matTranspose (m : List (List ℚ)) : List (List ℚ) := List.transpose m

/-- Matrix-matrix product. -/
def matMul (a b : List (List ℚ)) : List (List ℚ) :=
  a.map fun row => (matTranspose b).map fun col => dotProduct row col

/-- Componentwise matrix sum. -/
def matAdd (a b : List (List ℚ)) : List (List ℚ) := List.zipWith vecAdd a b

/-- Square diagonal matrix from its diagonal (Eigen asDiagonal). -/
def diagMat (d : List ℚ) : List (List ℚ) :=
  (List.range d.length).map fun i =>
    (List.range d.length).map fun j => if i = j then d.getD i 0 else 0

/-- Inverse of a 2x2 matrix; none when the matrix is singular or not 2x2
(Eigen would silently produce non-finite entries; the control law is assumed
well-conditioned by configuration). -/
def inv2x2 (m : List (List ℚ)) : Option (List (List ℚ)) :=
  match m with
  | [[a, b], [c, d]] =>
    let det := a * d - b * c
    if det = 0 then none else some [[d / det, -b / det], [-c / det, a / det]]
  | _ => none

/-- The member state read and written by AgentCore::control. -/
structure ControlState where
  sample_time : ℚ
  pose_virtual_x : ℚ
  pose_virtual_y : ℚ
  twist_virtual_x : ℚ
  twist_virtual_y : ℚ
  estimated_statistics : FormationStatistics
  target_statistics : FormationStatistics
  jacob_phi : List (List ℚ)
  gamma_diag : List ℚ
  lambda_diag : List ℚ
  b_diag : List ℚ
  velocity_virtual_threshold : ℚ

/-- The control-command saturation of AgentCore::control (lines 132-136):
current_velocity_virtual = sqrt(control_law(1)^2 + control_law(2)^2), and when
it exceeds the threshold the whole vector is rescaled by
threshold/current_velocity_virtual.  The coefficient reads at indices 1 and 2
are modeled as fallible list lookups. -/
def controlSaturation (sqrtFn : ℚ → ℚ) (threshold : ℚ) (control_law : List ℚ) :
    Option (List ℚ) := do
  let c1 ← control_law[1]?
  let c2 ← control_law[2]?
  let current_velocity_virtual := sqrtFn (c1 ^ 2 + c2 ^ 2)
  if current_velocity_virtual > threshold then
    some (control_law.map fun q => q * (threshold / current_velocity_virtual))
  else
    some control_law

/-- AgentCore::control (lines 120-147): statistics error, the four
position-dependent Jacobian writes jacob_phi_(3,1), (4,1), (4,2), (5,2), the
weighted generalized inverse control law, the command saturation, and the
trapezoidal update of the virtual pose/twist from control_law(1) and
control_law(2). -/
def control (sqrtFn : ℚ → ℚ) (s : ControlState) : Option ControlState := do
  let stats_error :=
    vecSub (statsMsgToVector s.target_statistics) (statsMsgToVector s.estimated_statistics)
  let j1 ← matSet s.jacob_phi 3 1 (2 * s.pose_virtual_x)
  let j2 ← matSet j1 4 1 s.pose_virtual_y
  let j3 ← matSet j2 4 2 s.pose_virtual_x
  let j4 ← matSet j3 5 2 (2 * s.pose_virtual_y)
  let m := matAdd (diagMat s.b_diag) (matMul (matTranspose j4) (matMul (diagMat s.lambda_diag) j4))
  let mInv ← inv2x2 m
  let control_law :=
    matMulVec mInv (matMulVec (matTranspose j4) (matMulVec (diagMat s.gamma_diag) stats_error))
  let control_law ← controlSaturation sqrtFn s.velocity_virtual_threshold control_law
  let u1 ← control_law[1]?
  let u2 ← control_law[2]?
  some { s with
    pose_virtual_x := integrator s.sample_time s.pose_virtual_x s.twist_virtual_x u1 1,
    pose_virtual_y := integrator s.sample_time s.pose_virtual_y s.twist_virtual_y u2 1,
    twist_virtual_x := u1,
    twist_virtual_y := u2,
    jacob_phi := j4 }

/-- The member state read and written by AgentCore::dynamics; theta stands
for getTheta(pose_.orientation), the yaw extracted at the start of the step
and written back through setTheta at the end. -/
structure DynamicsState where
  sample_time : ℚ
  vehicle_length : ℚ
  pose_x : ℚ
  pose_y : ℚ
  theta : ℚ
  twist_x : ℚ
  twist_y : ℚ
  twist_omega : ℚ
  speed_command_sat : ℚ
  steer_command_sat : ℚ

/-- AgentCore::dynamics (lines 149-164).  Note the faithful rendering of
line 152, whose declaration of y_dot_new also assigns twist_.linear.y before
any of the three integrations run; the subsequent y integration therefore
reads the already-overwritten twist component. -/
def dynamics (cosFn sinFn tanFn : ℚ → ℚ) (s : DynamicsState) : DynamicsState :=
  let theta := s.theta
  let x_dot_new := s.speed_command_sat * cosFn theta
  let y_dot_new := s.speed_command_sat * sinFn theta
  let s1 := { s with twist_y := y_dot_new }
  let theta_dot_new := s1.speed_command_sat / s1.vehicle_length * tanFn s1.steer_command_sat
  { s1 with
    pose_x := integrator s1.sample_time s1.pose_x s1.twist_x x_dot_new 1,
    pose_y := integrator s1.sample_time s1.pose_y s1.twist_y y_dot_new 1,
    theta := integrator s1.sample_time theta s1.twist_omega theta_dot_new 1,
    twist_x := x_dot_new,
    twist_y := y_dot_new,
    twist_omega := theta_dot_new }

/-- The member state read and written by AgentCore::guidance; theta stands
for getTheta(pose_.orientation). -/
structure GuidanceState where
  sample_time : ℚ
  k_p_speed : ℚ
  k_i_speed : ℚ
  k_p_steer : ℚ
  speed_min : ℚ
  speed_max : ℚ
  steer_min : ℚ
  steer_max : ℚ
  los_distance_threshold : ℚ
  pose_x : ℚ
  pose_y : ℚ
  theta : ℚ
  pose_virtual_x : ℚ
  pose_virtual_y : ℚ
  twist_x : ℚ
  twist_y : ℚ
  los_distance : ℚ
  los_angle : ℚ
  speed_error : ℚ
  speed_integral : ℚ
  speed_command_sat : ℚ
  steer_command_sat : ℚ

/-- AgentCore::guidance (lines 173-191): LOS distance and bearing, the
distance-proportional speed reference capped at speed_max, the trapezoidal PI
speed loop saturated into [speed_min, speed_max], and the proportional steer
command on the fmod-wrapped heading error saturated into
[steer_min, steer_max].  sqrtFn, atan2Fn and fmodPiFn stand for std::sqrt,
std::atan2 and std::fmod(., M_PI). -/
def guidance (sqrtFn : ℚ → ℚ) (atan2Fn : ℚ → ℚ → ℚ) (fmodPiFn : ℚ → ℚ)
    (s : GuidanceState) : GuidanceState :=
  let los_distance :=
    sqrtFn ((s.pose_virtual_x - s.pose_x) ^ 2 + (s.pose_virtual_y - s.pose_y) ^ 2)
  let los_angle := atan2Fn (s.pose_virtual_y - s.pose_y) (s.pose_virtual_x - s.pose_x)
  let speed_reference := min (s.speed_max * los_distance / s.los_distance_threshold) s.speed_max
  let speed_error_old := s.speed_error
  let speed_error := speed_reference - sqrtFn (s.twist_x ^ 2 + s.twist_y ^ 2)
  let speed_integral :=
    integrator s.sample_time s.speed_integral speed_error_old speed_error s.k_i_speed
  let speed_command := s.k_p_speed * (speed_error + speed_integral)
  let speed_command_sat := saturation speed_command s.speed_min s.speed_max
  let steer_command := s.k_p_steer * fmodPiFn (los_angle - s.theta)
  let steer_command_sat := saturation steer_command s.steer_min s.steer_max
  { s with
    los_distance := los_distance,
    los_angle := los_angle,
    speed_error := speed_error,
    speed_integral := speed_integral,
    speed_command_sat := speed_command_sat,
    steer_command_sat := steer_command_sat }

/-- A stamped statistics message as delivered in a
agent_test::FormationStatisticsArray: the header frame_id string and the
statistics payload. -/
structure StatsStamped where
  frame_id : List Char
  stats : FormationStatistics
deriving DecidableEq

/-- The whitespace characters skipped by std::stoi (std::isspace in the
default locale). -/
def isSpaceChar (c : Char) : Bool :=
  c == ' ' || c == '\t' || c == '\n' || c == '\x0b' || c == '\x0c' || c == '\r'

/-- Digits-prefix conversion used by std::stoi after sign handling: none when
no digit is present (std::invalid_argument), otherwise the value of the
maximal digit prefix. -/
def stoiDigits (s : List Char) : Option Nat :=
  let digits := s.takeWhile Char.isDigit
  if digits.isEmpty then none
  else some (digits.foldl (fun acc c => acc * 10 + (c.toNat - Char.toNat '0')) 0)

/-- Model of std::stoi with base 10: skip leading whitespace, consume an
optional sign, then require at least one decimal digit; none models the
std::invalid_argument exception.  (The std::out_of_range overflow throw is
not modeled: agent identifiers are small.) -/
def stoi (s : List Char) : Option Int :=
  let s1 := s.dropWhile isSpaceChar
  match s1 with
  | '-' :: rest => (stoiDigits rest).map fun n => -(n : Int)
  | '+' :: rest => (stoiDigits rest).map fun n => (n : Int)
  | _ => (stoiDigits s1).map fun n => (n : Int)

/-- One iteration of the range-for in AgentCore::receivedStatsCallback:
push_back the observation when std::stoi(frame_id) is found among the
configured neighbours; none models the std::stoi exception escaping the
handler. -/
def receivedStep (neighbours : List Int) (buf : List FormationStatistics)
    (data : StatsStamped) : Option (List FormationStatistics) := do
  let id ← stoi data.frame_id
  if neighbours.contains id then some (buf ++ [data.stats]) else some buf

/-- AgentCore::receivedStatsCallback (lines 197-207): warns (Bool component)
when the buffer is still non-empty, then appends every observation whose
frame_id converts to a configured neighbour id; none models an uncaught
std::stoi exception. -/
def receivedStatsCallback (neighbours : List Int)
    (received_statistics : List FormationStatistics) (received : List StatsStamped) :
    Option (Bool × List FormationStatistics) := do
  let warn := !received_statistics.isEmpty
  let buf ← received.foldlM (receivedStep neighbours) received_statistics
  some (warn, buf)

/-- The observations of a batch that AgentCore::receivedStatsCallback
accepts, in arrival order: those whose frame_id converts to an id contained
in the configured neighbour list. -/
def acceptedStats (neighbours : List Int) : List StatsStamped → List FormationStatistics
  | [] => []
  | d :: rest =>
    match stoi d.frame_id with
    | some id =>
      if neighbours.contains id then d.stats :: acceptedStats neighbours rest
      else acceptedStats neighbours rest
    | none => acceptedStats neighbours rest

/-- statsMsgToMatrix aborts (std::out_of_range from msg.at) whenever fewer
than number_of_stats observations are buffered. -/
theorem statsMsgToMatrix_eq_none_of_length_lt {msg : List FormationStatistics}
    (h : msg.length < number_of_stats) :
    statsMsgToMatrix msg = none := by
  rcases msg with _ | ⟨a, _ | ⟨b, _ | ⟨c, _ | ⟨d, _ | ⟨e, rest⟩⟩⟩⟩⟩
  · rfl
  · rfl
  · rfl
  · rfl
  · rfl
  · simp only [List.length_cons, number_of_stats] at h
    omega

/-- C1: the claim says the neighbour-correction sum of a consensus step
ranges over every buffered observation regardless of the batch size; the
code instead reads exactly number_of_stats rows via msg.at(i), so any batch
with fewer than five observations makes the step throw std::out_of_range
(modeled as none) instead of summing over the batch. -/
theorem consensus_aborts_below_five_observations (s : ConsensusState)
    (h : s.received_statistics.length < number_of_stats) :
    consensus s = none := by
  simp [consensus, statsMsgToMatrix_eq_none_of_length_lt h]

/-- Witness for consensus_aborts_below_five_observations: a concrete cycle
buffering a single neighbour observation. -/
theorem consensus_aborts_below_five_observations_check :
    (({ sample_time := 1/10, pose_virtual_x := 1, pose_virtual_y := 2,
        twist_virtual_x := 3, twist_virtual_y := 4, estimated_statistics := {},
        received_statistics := [{ m_x := 1 }] } : ConsensusState).received_statistics.length
      < number_of_stats) ∧
    consensus { sample_time := 1/10, pose_virtual_x := 1, pose_virtual_y := 2,
                twist_virtual_x := 3, twist_virtual_y := 4, estimated_statistics := {},
                received_statistics := [{ m_x := 1 }] } = none :=
  ⟨by decide, consensus_aborts_below_five_observations _ (by decide)⟩

/-- C2: the claim says the statistics codec round-trips; converting the
message (1, 2, 3, 4, 5) to its 5-vector and back aborts on the out-of-range
coefficient read vector(5) instead of returning the message. -/
theorem statsCodec_roundtrip_aborts :
    statsVectorToMsg (statsMsgToVector { m_x := 1, m_y := 2, m_xx := 3, m_xy := 4, m_yy := 5 })
      = none := by decide

/-- C6: the claim says a consensus step right after a drained one (no new
delivery, so an empty received buffer) completes with a zero
neighbour-correction term; the code instead calls msg.at(0) on the empty
buffer and throws std::out_of_range (modeled as none). -/
theorem consensus_empty_buffer_aborts (s : ConsensusState)
    (h : s.received_statistics = []) :
    consensus s = none := by
  have hlt : s.received_statistics.length < number_of_stats := by
    rw [h]; decide
  simp [consensus, statsMsgToMatrix_eq_none_of_length_lt hlt]

/-- Witness for consensus_empty_buffer_aborts: a concrete second step with an
empty received buffer. -/
theorem consensus_empty_buffer_aborts_check :
    (({ sample_time := 1/10, pose_virtual_x := 5, pose_virtual_y := 6,
        twist_virtual_x := 7, twist_virtual_y := 8, estimated_statistics := { m_x := 2 },
        received_statistics := [] } : ConsensusState).received_statistics
      = ([] : List FormationStatistics)) ∧
    consensus { sample_time := 1/10, pose_virtual_x := 5, pose_virtual_y := 6,
                twist_virtual_x := 7, twist_virtual_y := 8, estimated_statistics := { m_x := 2 },
                received_statistics := [] } = none :=
  ⟨rfl, consensus_empty_buffer_aborts _ rfl⟩

/-- C3: the claim says every element access of a control step is within the
bounds of the 5-by-2 Jacobian and the 2-vector command; starting from the
constructor value Identity(5, 2) of jacob_phi_, the third position-dependent
write jacob_phi_(4, 2) is already out of range (column indices are 0..1), so
the step aborts for every input. -/
theorem control_jacobian_writes_out_of_range (sqrtFn : ℚ → ℚ)
    (st pvx pvy tvx tvy thr : ℚ) (est tgt : FormationStatistics) (g l b : List ℚ) :
    control sqrtFn
      { sample_time := st, pose_virtual_x := pvx, pose_virtual_y := pvy,
        twist_virtual_x := tvx, twist_virtual_y := tvy,
        estimated_statistics := est, target_statistics := tgt,
        jacob_phi := identity52, gamma_diag := g, lambda_diag := l, b_diag := b,
        velocity_virtual_threshold := thr } = none := rfl

/-- C7: the claim describes the saturation of the 2-vector command u; the
code computes the commanded magnitude from control_law(1) and control_law(2),
and on a 2-vector (valid indices 0 and 1) the read of coefficient 2 is out of
range, so the saturation aborts for every 2-vector command. -/
theorem controlSaturation_reads_past_command_end (sqrtFn : ℚ → ℚ) (threshold u0 u1 : ℚ) :
    controlSaturation sqrtFn threshold [u0, u1] = none := rfl

/-- C4: the claim says each of x, y, theta is advanced by the trapezoid of
the previous cycle's stored rate and the new rate, with the stored twist
updated only afterwards; because line 152 overwrites twist_.linear.y while
declaring y_dot_new, the y integration degenerates to a full Euler step on
the new rate (it no longer depends on the previously stored y rate), while
the x integration does average the stored and the new rate. -/
theorem dynamics_y_trapezoid_degenerates (cosFn sinFn tanFn : ℚ → ℚ) (s : DynamicsState) :
    (dynamics cosFn sinFn tanFn s).pose_y
        = s.pose_y + s.sample_time * (s.speed_command_sat * sinFn s.theta) ∧
    (dynamics cosFn sinFn tanFn s).pose_x
        = s.pose_x + s.sample_time * (s.twist_x + s.speed_command_sat * cosFn s.theta) / 2 := by
  constructor
  · simp only [dynamics, integrator]
    ring
  · simp only [dynamics, integrator]
    ring

/-- C9: the guidance speed loop: the speed error is the distance-proportional
reference min(speed_max*losDistance/los_distance_threshold, speed_max) minus
the current speed magnitude, the integral term advances by the trapezoid of
the previous and the current error weighted by k_i_speed, and the command
k_p_speed*(error + integral) is saturated into [speed_min, speed_max]. -/
theorem guidance_speed_loop_formula (sqrtFn : ℚ → ℚ) (atan2Fn : ℚ → ℚ → ℚ)
    (fmodPiFn : ℚ → ℚ) (s : GuidanceState) :
    (guidance sqrtFn atan2Fn fmodPiFn s).speed_error
        = min (s.speed_max
              * sqrtFn ((s.pose_virtual_x - s.pose_x) ^ 2 + (s.pose_virtual_y - s.pose_y) ^ 2)
              / s.los_distance_threshold) s.speed_max
          - sqrtFn (s.twist_x ^ 2 + s.twist_y ^ 2) ∧
    (guidance sqrtFn atan2Fn fmodPiFn s).speed_integral
        = s.speed_integral + s.k_i_speed * s.sample_time
            * (s.speed_error + (guidance sqrtFn atan2Fn fmodPiFn s).speed_error) / 2 ∧
    (guidance sqrtFn atan2Fn fmodPiFn s).speed_command_sat
        = min (max (s.k_p_speed * ((guidance sqrtFn atan2Fn fmodPiFn s).speed_error
              + (guidance sqrtFn atan2Fn fmodPiFn s).speed_integral)) s.speed_min) s.speed_max :=
  ⟨rfl, rfl, rfl⟩

/-- Observations used by the concrete receive-handler examples. -/
def staleObs : FormationStatistics := { m_x := 1 }

/-- A second observation used by the concrete receive-handler examples. -/
def freshObs : FormationStatistics := { m_x := 9 }

/-- C5 counterexample: a batch from neighbour 2 delivered while staleObs is
still buffered leaves the buffer holding the stale observation followed by
the fresh one, which differs from holding only the latest batch. -/
theorem receivedStatsCallback_retains_stale_data :
    receivedStatsCallback [2] [staleObs] [{ frame_id := ['2'], stats := freshObs }]
        = some (true, [staleObs, freshObs]) ∧
    [staleObs, freshObs] ≠ [freshObs] :=
  ⟨by decide, by decide⟩

/-- The loop of receivedStatsCallback: when every frame_id converts, the
buffer grows by exactly the accepted observations, in arrival order. -/
theorem foldlM_receivedStep_all_some (neighbours : List Int) (received : List StatsStamped) :
    ∀ buf : List FormationStatistics,
      (∀ d ∈ received, (stoi d.frame_id).isSome) →
      received.foldlM (receivedStep neighbours) buf
        = some (buf ++ acceptedStats neighbours received) := by
  induction received with
  | nil =>
    intro buf _
    simp [acceptedStats]
  | cons a as ih =>
    intro buf h
    have ha := h a (List.mem_cons_self a as)
    rcases hs : stoi a.frame_id with _ | id
    · rw [hs] at ha
      simp at ha
    · have htail : ∀ d ∈ as, (stoi d.frame_id).isSome :=
        fun d hd => h d (List.mem_cons_of_mem a hd)
      by_cases hc : id ∈ neighbours
      · simp [List.foldlM, receivedStep, hs, hc, ih _ htail, acceptedStats]
      · simp [List.foldlM, receivedStep, hs, hc, ih _ htail, acceptedStats]

/-- The loop of receivedStatsCallback aborts (uncaught std::stoi exception)
whenever some observation's frame_id does not convert. -/
theorem foldlM_receivedStep_none (neighbours : List Int) (received : List StatsStamped) :
    ∀ buf : List FormationStatistics,
      (∃ d ∈ received, stoi d.frame_id = none) →
      received.foldlM (receivedStep neighbours) buf = none := by
  induction received with
  | nil =>
    intro buf h
    simp at h
  | cons a as ih =>
    intro buf h
    rcases hs : stoi a.frame_id with _ | id
    · simp [List.foldlM, receivedStep, hs]
    · have htail : ∃ d ∈ as, stoi d.frame_id = none := by
        rcases h with ⟨d, hd, hnone⟩
        rcases List.mem_cons.mp hd with rfl | hd'
        · rw [hs] at hnone
          exact absurd hnone (by simp)
        · exact ⟨d, hd', hnone⟩
      by_cases hc : id ∈ neighbours
      · simp [List.foldlM, receivedStep, hs, hc, ih _ htail]
      · simp [List.foldlM, receivedStep, hs, hc, ih _ htail]

/-- C5 (amended): when a batch is delivered while the buffer is non-empty,
the handler logs the warning and APPENDS the accepted observations of the
latest batch, so the stale observations remain in the buffer in front of
the new ones (nothing is discarded). -/
theorem receivedStatsCallback_warns_and_appends (neighbours : List Int)
    (buf : List FormationStatistics) (received : List StatsStamped)
    (hbuf : buf ≠ [])
    (hparse : ∀ d ∈ received, (stoi d.frame_id).isSome) :
    receivedStatsCallback neighbours buf received
      = some (true, buf ++ acceptedStats neighbours received) := by
  have hempty : buf.isEmpty = false := by
    cases buf with
    | nil => exact absurd rfl hbuf
    | cons a as => rfl
  simp [receivedStatsCallback, foldlM_receivedStep_all_some neighbours received buf hparse, hempty]

/-- Witness for receivedStatsCallback_warns_and_appends: a concrete delivery
over a non-empty buffer. -/
theorem receivedStatsCallback_warns_and_appends_check :
    (([staleObs] : List FormationStatistics) ≠ []) ∧
    receivedStatsCallback [2] [staleObs] [{ frame_id := ['2'], stats := freshObs }]
      = some (true, [staleObs] ++ acceptedStats [2] [{ frame_id := ['2'], stats := freshObs }]) :=
  ⟨by decide, receivedStatsCallback_warns_and_appends [2] [staleObs]
      [{ frame_id := ['2'], stats := freshObs }] (by decide) (by decide)⟩

/-- C10: when every frame_id of the batch converts under std::stoi, the
handler appends exactly the observations whose id lies in the configured
neighbour set, in arrival order; when some frame_id does not convert, the
std::stoi exception escapes the handler instead of that observation being
discarded. -/
theorem receivedStatsCallback_filters_by_neighbour_id (neighbours : List Int)
    (buf : List FormationStatistics) (received : List StatsStamped) :
    ((∀ d ∈ received, (stoi d.frame_id).isSome) →
      receivedStatsCallback neighbours buf received
        = some (!buf.isEmpty, buf ++ acceptedStats neighbours received)) ∧
    ((∃ d ∈ received, stoi d.frame_id = none) →
      receivedStatsCallback neighbours buf received = none) := by
  constructor
  · intro h
    simp [receivedStatsCallback, foldlM_receivedStep_all_some neighbours received buf h]
  · intro h
    simp [receivedStatsCallback, foldlM_receivedStep_none neighbours received buf h]

/-- Witness for receivedStatsCallback_filters_by_neighbour_id: one batch with
a kept and a dropped observation, and one batch with a non-numeric
frame_id. -/
theorem receivedStatsCallback_filters_check :
    receivedStatsCallback [2, 3] []
        [{ frame_id := ['2'], stats := { m_x := 1 } }, { frame_id := ['7'], stats := { m_x := 2 } }]
      = some (false, [{ m_x := 1 }]) ∧
    receivedStatsCallback [2, 3] [] [{ frame_id := ['z'], stats := { m_x := 1 } }] = none := by
  constructor
  · have h := (receivedStatsCallback_filters_by_neighbour_id [2, 3] []
      [{ frame_id := ['2'], stats := { m_x := 1 } },
       { frame_id := ['7'], stats := { m_x := 2 } }]).1 (by decide)
    rw [h]
    decide
  · exact (receivedStatsCallback_filters_by_neighbour_id [2, 3] []
      [{ frame_id := ['z'], stats := { m_x := 1 } }]).2
      ⟨{ frame_id := ['z'], stats := { m_x := 1 } }, by decide, by decide⟩

/-- C8: converting a vector whose length differs from number_of_stats logs
the dimension-mismatch error (the Bool flag) and returns the
default-constructed, all-zero statistics message; the conversion touches no
other state. -/
theorem statsVectorToMsg_dimension_mismatch_defaults (v : List ℚ)
    (h : v.length ≠ number_of_stats) :
    statsVectorToMsg v
      = some (true, { m_x := 0, m_y := 0, m_xx := 0, m_xy := 0, m_yy := 0 }) := by
  unfold statsVectorToMsg
  rw [if_pos h]

/-- Witness for statsVectorToMsg_dimension_mismatch_defaults: a 3-vector. -/
theorem statsVectorToMsg_dimension_mismatch_check :
    (([(1 : ℚ), 2, 3] : List ℚ).length ≠ number_of_stats) ∧
    statsVectorToMsg [1, 2, 3]
      = some (true, { m_x := 0, m_y := 0, m_xx := 0, m_xy := 0, m_yy := 0 }) :=
  ⟨by decide, statsVectorToMsg_dimension_mismatch_defaults [1, 2, 3] (by decide)⟩

end FormationControl
